import Mathlib

/-!
Shallow embedding of the PyAttoDRY repository (files `Cryostats.py`,
`PyAttoDRY.py`): a ctypes pass-through wrapper (class `AttoDRY`) around the
vendor driver `AttoDRYlib`.  Every method of the class marshals a few scalar
arguments and forwards one native call.  We model the vendor driver as an
explicit record of the values its entry points write into output buffers
(a pass-through test double, as the spec's testable properties prescribe),
and every method as a pure function returning its Python result, the facade
object after the call, the driver state after the call, and the ordered
trace of native entry points invoked.
-/

/-- Domain of 32-bit words: bit patterns of `ctypes.c_float` / `c_int`
output buffers.  Physical scalars are carried as their 32-bit float bit
patterns; this layer performs no numeric conversion on them. -/
abbrev Word32 := Fin 4294967296

/-- Value of a `ctypes.c_int` holding the 32-bit word `w`: two's-complement
reading of the bit pattern. -/
def int32OfWord (w : Word32) : Int :=
  if (w : Nat) < 2147483648 then ((w : Nat) : Int) else ((w : Nat) : Int) - 4294967296

/-- Marshaling of a Python `int` through `ctypes.c_int`: wrap into
`[-2^31, 2^31)`. -/
def int32wrap (i : Int) : Int :=
  (i + 2147483648) % 4294967296 - 2147483648

/-- Marshaling of a Python `int` through `ctypes.c_uint16`: reduce mod `2^16`. -/
def uint16wrap (n : Nat) : Nat := n % 65536

/-- Python `str.encode("utf-8")`. -/
def encodeUtf8 (s : String) : List UInt8 := s.toUTF8.toList

/-- Value of a C string buffer (`ctypes` `.value`): the bytes up to the first
NUL byte. -/
def cstrValue (bs : List UInt8) : List UInt8 := bs.takeWhile (· ≠ 0)

/-- Python `bytes.decode("utf-8")`: decode a byte sequence as UTF-8, `none`
when the bytes are not valid UTF-8 (Python raises there). -/
def decodeUtf8 (bs : List UInt8) : Option String :=
  String.fromUTF8? ⟨⟨bs⟩⟩

/-- Enum `Devices` of `PyAttoDRY.py` (and the identical `Cryostats` of
`Cryostats.py`): setup versions 0 / 1 / 2. -/
inductive Devices where
  | ATTODRY1100
  | ATTODRY2100
  | ATTODRY800
deriving DecidableEq, Repr

/-- Integer value of the `Devices` IntEnum. -/
def Devices.val : Devices → Nat
  | .ATTODRY1100 => 0
  | .ATTODRY2100 => 1
  | .ATTODRY800 => 2

/-- One invocation of a native entry point of `AttoDRYlib`, with the
marshaled arguments this layer passes.  Output buffers passed by reference
are represented by the size of the buffer where it matters
(`getAttodryErrorMessage` gets the allocated buffer size and the `c_int`
length argument). -/
inductive DriverCall where
  | begin (setupVersion : Nat)
  | Connect (comPort : List UInt8)
  | Disconnect
  | end_
  | Cancel
  | Confirm
  | getAttodryErrorMessage (bufSize : Int) (len : Int)
  | getAttodryErrorStatus
  | isControllingField
  | isControllingTemperature
  | isPersistentModeSet
  | isDeviceInitialised
  | isDeviceConnected
  | toggleMagneticFieldControl
  | togglePersistentMode
  | toggleSampleTemperatureControl
  | toggleFullTemperatureControl
  | goToBaseTemperature
  | get4KStageTemperature
  | getMagneticField
  | getMagneticFieldSetPoint
  | getSampleTemperature
  | getUserTemperature
  | setUserMagneticField (v : Word32)
  | setUserTemperature (v : Word32)
  | downloadSampleTemperatureSensorCalibrationCurve (savepath : List UInt8)
  | downloadTemperatureSensorCalibrationCurve (n : Int) (savepath : List UInt8)
  | getDerivativeGain
  | getIntegralGain
  | getProportionalGain
  | getSampleHeaterMaximumPower
  | getSampleHeaterPower
  | getSampleHeaterResistance
  | getSampleHeaterWireResistance
  | getVtiHeaterPower
  | getVtiTemperature
  | isGoingToBaseTemperature
  | isPumping
  | isSampleExchangeInProgress
  | isSampleHeaterOn
  | isSampleReadyToExchange
  | isSystemRunning
  | isZeroingField
  | lowerError
  | querySampleHeaterMaximumPower
  | querySampleHeaterResistance
  | querySampleHeaterWireResistance
  | setDerivativeGain (v : Word32)
  | setIntegralGain (v : Word32)
  | setProportionalGain (v : Word32)
  | setSampleHeaterMaximumPower (v : Word32)
  | setSampleHeaterWireResistance (v : Word32)
  | setSampleHeaterPower (v : Word32)
  | setSampleHeaterResistance (v : Word32)
  | startLogging (savepath : List UInt8) (timeSelection : Int) (append : Int)
  | startSampleExchange
  | stopLogging
  | sweepFieldToZero
  | togglePump
  | toggleStartUpShutdown
  | uploadSampleTemperatureCalibrationCurve (loadpath : List UInt8)
  | uploadTemperatureCalibrationCurve (n : Int) (loadpath : List UInt8)
  | setVTIHeaterPower (v : Word32)
  | queryReservoirTsetColdSample
  | getReservoirTsetColdSample
  | setReservoirTsetWarmMagnet (v : Word32)
  | setReservoirTsetColdSample (v : Word32)
  | setReservoirTsetWarmSample (v : Word32)
  | queryReservoirTsetWarmSample
  | queryReservoirTsetWarmMagnet
  | getReservoirTsetWarmSample
  | getReservoirTsetWarmMagnet
  | getCryostatInPressure
  | getCryostatInValve
  | getCryostatOutPressure
  | getCryostatOutValve
  | getDumpInValve
  | getDumpOutValve
  | getDumpPressure
  | getReservoirHeaterPower
  | getReservoirTemperature
  | toggleCryostatInValve
  | toggleCryostatOutValve
  | toggleDumpInValve
  | toggleDumpOutValve
  | get40KStageTemperature
  | getHeliumValve
  | getInnerVolumeValve
  | getOuterVolumeValve
  | getPressure
  | getPumpValve
  | getTurbopumpFrequency
  | isExchangeHeaterOn
  | toggleExchangeHeaterControl
  | toggleHeliumValve
  | toggleInnerVolumeValve
  | toggleOuterVolumeValve
  | togglePumpValve
  | toggleSampleSpace800Valve
  | getPump800Valve
  | getSampleSpace800Valve
  | togglePump800Valve
  | toggleBreakVac800Valve
  | getPressure800
  | GetTurbopumpFrequ800

/-- Predicate picking out the `Disconnect` entry point in a trace. -/
def DriverCall.isDisconnectCall : DriverCall → Bool
  | .Disconnect => true
  | _ => false

/-- Predicate picking out the `end` entry point in a trace. -/
def DriverCall.isEndCall : DriverCall → Bool
  | .end_ => true
  | _ => false

/-- The vendor driver modeled as a pass-through store: one 32-bit word per
output channel (the value the corresponding entry point writes into the
caller's buffer), and for the error-message entry point the content of the
text buffer after the call, as a function of the `c_int` length argument.
Scalar `set*` entry points store the written word into the matching channel;
commands, toggles and `query*` entry points are recorded in the trace and
leave the store unchanged (their hardware effect is opaque to this layer).
All channels default to 0 so that concrete test doubles are easy to build. -/
structure Driver where
  deviceConnected : Word32 := 0
  deviceInitialised : Word32 := 0
  controllingField : Word32 := 0
  controllingTemperature : Word32 := 0
  persistentModeSet : Word32 := 0
  goingToBaseTemperature : Word32 := 0
  pumping : Word32 := 0
  sampleExchangeInProgress : Word32 := 0
  sampleHeaterOn : Word32 := 0
  sampleReadyToExchange : Word32 := 0
  systemRunning : Word32 := 0
  zeroingField : Word32 := 0
  exchangeHeaterOn : Word32 := 0
  errorStatus : Word32 := 0
  errorMessageBuf : Int → List UInt8 := fun _ => []
  stage4KTemperature : Word32 := 0
  stage40KTemperature : Word32 := 0
  magneticField : Word32 := 0
  magneticFieldSetPoint : Word32 := 0
  sampleTemperature : Word32 := 0
  userTemperature : Word32 := 0
  userMagneticField : Word32 := 0
  derivativeGain : Word32 := 0
  integralGain : Word32 := 0
  proportionalGain : Word32 := 0
  sampleHeaterMaximumPower : Word32 := 0
  sampleHeaterPower : Word32 := 0
  sampleHeaterResistance : Word32 := 0
  sampleHeaterWireResistance : Word32 := 0
  vtiHeaterPower : Word32 := 0
  vtiTemperature : Word32 := 0
  reservoirTsetColdSample : Word32 := 0
  reservoirTsetWarmSample : Word32 := 0
  reservoirTsetWarmMagnet : Word32 := 0
  cryostatInPressure : Word32 := 0
  cryostatInValve : Word32 := 0
  cryostatOutPressure : Word32 := 0
  cryostatOutValve : Word32 := 0
  dumpInValve : Word32 := 0
  dumpOutValve : Word32 := 0
  dumpPressure : Word32 := 0
  reservoirHeaterPower : Word32 := 0
  reservoirTemperature : Word32 := 0
  heliumValve : Word32 := 0
  innerVolumeValve : Word32 := 0
  outerVolumeValve : Word32 := 0
  pressure : Word32 := 0
  pumpValve : Word32 := 0
  turbopumpFrequency : Word32 := 0
  pump800Valve : Word32 := 0
  sampleSpace800Valve : Word32 := 0
  pressure800 : Word32 := 0
  turbopumpFrequ800 : Word32 := 0

/-- The Facade: class `AttoDRY` of `PyAttoDRY.py`.  Its `__init__` stores
exactly two attributes, `setup_version` and `com_port`; no method of the
class assigns any other attribute. -/
structure AttoDRY where
  setup_version : Devices
  com_port : String

/-- Result of running one Facade method: the Python return value, the facade
object afterwards (Python methods never mutate `self`, which the embedding
makes explicit), the driver store afterwards, and the ordered list of native
entry points invoked. -/
structure Eff (α : Type) where
  result : α
  facade : AttoDRY
  driver : Driver
  trace : List DriverCall

/-- Method `AttoDRY.begin`: `adryLib.begin(c_uint16(self.setup_version).value)`. -/
def AttoDRY.begin (self : AttoDRY) (d : Driver) : Eff Unit :=
  ⟨(), self, d, [DriverCall.begin (uint16wrap self.setup_version.val)]⟩

/-- Method `AttoDRY.Connect`: encodes `self.com_port` as UTF-8 and passes the
`c_char_p` value to `adryLib.Connect`. -/
def AttoDRY.Connect (self : AttoDRY) (d : Driver) : Eff Unit :=
  ⟨(), self, d, [DriverCall.Connect (cstrValue (encodeUtf8 self.com_port))]⟩

/-- Method `AttoDRY.Disconnect`: `adryLib.Disconnect()`. -/
def AttoDRY.Disconnect (self : AttoDRY) (d : Driver) : Eff Unit :=
  ⟨(), self, d, [DriverCall.Disconnect]⟩

/-- Method `AttoDRY.isDeviceConnected`: reads a `c_int` from
`adryLib.isDeviceConnected` and returns its value. -/
def AttoDRY.isDeviceConnected (self : AttoDRY) (d : Driver) : Eff Int :=
  ⟨int32OfWord d.deviceConnected, self, d, [DriverCall.isDeviceConnected]⟩

/-- Method `AttoDRY.end`: `if self.isDeviceConnected(): self.Disconnect()`,
then `adryLib.end()`.  (`end` is a Lean keyword, hence the underscore.) -/
def AttoDRY.end_ (self : AttoDRY) (d : Driver) : Eff Unit :=
  let c := AttoDRY.isDeviceConnected self d
  if c.result ≠ 0 then
    let dis := AttoDRY.Disconnect c.facade c.driver
    ⟨(), dis.facade, dis.driver, c.trace ++ dis.trace ++ [DriverCall.end_]⟩
  else
    ⟨(), c.facade, c.driver, c.trace ++ [DriverCall.end_]⟩

/-- Method `AttoDRY.getActionMessage`: allocates
`create_string_buffer(length)` (default 500), calls
`adryLib.getAttodryErrorMessage(byref(buf), c_int(length))`, and returns
`buf.value.decode("utf-8")`. -/
def AttoDRY.getActionMessage (self : AttoDRY) (d : Driver) (length : Int := 500) :
    Eff (Option String) :=
  let ActionMessage := d.errorMessageBuf (int32wrap length)
  ⟨decodeUtf8 (cstrValue ActionMessage), self, d,
    [DriverCall.getAttodryErrorMessage length (int32wrap length)]⟩

/-- Method `AttoDRY.getAttodryErrorMessage`: allocates
`create_string_buffer(length)` (default 500), calls
`adryLib.getAttodryErrorMessage(byref(buf), c_int(length))`, and returns
`buf.value.decode("utf-8")`. -/
def AttoDRY.getAttodryErrorMessage (self : AttoDRY) (d : Driver) (length : Int := 500) :
    Eff (Option String) :=
  let ErrorStatus := d.errorMessageBuf (int32wrap length)
  ⟨decodeUtf8 (cstrValue ErrorStatus), self, d,
    [DriverCall.getAttodryErrorMessage length (int32wrap length)]⟩

/-- Method `AttoDRY.getAttodryErrorStatus`: reads a `c_int` from
`adryLib.getAttodryErrorStatus`. -/
def AttoDRY.getAttodryErrorStatus (self : AttoDRY) (d : Driver) : Eff Int :=
  ⟨int32OfWord d.errorStatus, self, d, [DriverCall.getAttodryErrorStatus]⟩

/-- Method `AttoDRY.get4KStageTemperature`: reads a `c_float` from
`adryLib.get4KStageTemperature`. -/
def AttoDRY.get4KStageTemperature (self : AttoDRY) (d : Driver) : Eff Word32 :=
  ⟨d.stage4KTemperature, self, d, [DriverCall.get4KStageTemperature]⟩

/-- Method `AttoDRY.getSampleTemperature`: reads a `c_float` from
`adryLib.getSampleTemperature`. -/
def AttoDRY.getSampleTemperature (self : AttoDRY) (d : Driver) : Eff Word32 :=
  ⟨d.sampleTemperature, self, d, [DriverCall.getSampleTemperature]⟩

/-- Method `AttoDRY.getUserTemperature`: reads a `c_float` from
`adryLib.getUserTemperature`. -/
def AttoDRY.getUserTemperature (self : AttoDRY) (d : Driver) : Eff Word32 :=
  ⟨d.userTemperature, self, d, [DriverCall.getUserTemperature]⟩

/-- Method `AttoDRY.setUserTemperature`: passes `c_float(temperature)` to
`adryLib.setUserTemperature`; the pass-through driver store records the
written word in its `userTemperature` channel.  The argument domain is the
32-bit float values themselves (as bit patterns), on which the `c_float`
marshaling is the identity. -/
def AttoDRY.setUserTemperature (self : AttoDRY) (d : Driver) (temperature : Word32) :
    Eff Unit :=
  ⟨(), self, { d with userTemperature := temperature },
    [DriverCall.setUserTemperature temperature]⟩

/-- Method `AttoDRY.toggleHeliumValve` (docstring: ATTODRY1100 ONLY): calls
`adryLib.toggleHeliumValve()` unconditionally. -/
def AttoDRY.toggleHeliumValve (self : AttoDRY) (d : Driver) : Eff Unit :=
  ⟨(), self, d, [DriverCall.toggleHeliumValve]⟩

/-- Method `AttoDRY.uploadTemperatureCalibrationCurve`: encodes the path and
calls `adryLib.uploadTemperatureCalibrationCurve(c_int(user_curve_number).value,
c_char_p(Loadpath).value)`. -/
def AttoDRY.uploadTemperatureCalibrationCurve (self : AttoDRY) (d : Driver)
    (loadpath : String) (user_curve_number : Int) : Eff Unit :=
  ⟨(), self, d,
    [DriverCall.uploadTemperatureCalibrationCurve (int32wrap user_curve_number)
      (cstrValue (encodeUtf8 loadpath))]⟩

/-- Method `AttoDRY.getTurbopumpFrequency` (docstring: ATTODRY1100 ONLY):
reads a `c_float` from `adryLib.getTurbopumpFrequency`. -/
def AttoDRY.getTurbopumpFrequency (self : AttoDRY) (d : Driver) : Eff Word32 :=
  ⟨d.turbopumpFrequency, self, d, [DriverCall.getTurbopumpFrequency]⟩

/-- Method `AttoDRY.getBreakVac800Valve` (docstring: ATTODRY800 ONLY): the
body allocates a `c_int` buffer, passes it to
`adryLib.getTurbopumpFrequency` (not a break-vacuum entry point), and
returns the `c_int` value: the turbopump-frequency word read back through a
two's-complement integer view. -/
def AttoDRY.getBreakVac800Valve (self : AttoDRY) (d : Driver) : Eff Int :=
  ⟨int32OfWord d.turbopumpFrequency, self, d, [DriverCall.getTurbopumpFrequency]⟩

/-- Python value returned by a Facade method: `None`, an `int`, a float
(carried as its 32-bit word, since this layer never converts it), or a
decoded string. -/
inductive PyVal where
  | none
  | int (i : Int)
  | float (w : Word32)
  | str (s : Option String)

/-- Repackages a method result with its Python value injected into `PyVal`. -/
def Eff.toVal (f : α → PyVal) (e : Eff α) : Eff PyVal :=
  ⟨f e.result, e.facade, e.driver, e.trace⟩

/-- One operation of the Facade: exactly the public methods of class
`AttoDRY`, in source order, with their Python arguments. -/
inductive Op where
  | begin
  | Connect
  | Disconnect
  | end_
  | Cancel
  | Confirm
  | getActionMessage (length : Int)
  | getAttodryErrorMessage (length : Int)
  | getAttodryErrorStatus
  | isControllingField
  | isControllingTemperature
  | isPersistentModeSet
  | isDeviceInitialised
  | isDeviceConnected
  | toggleMagneticFieldControl
  | togglePersistentMode
  | toggleSampleTemperatureControl
  | toggleFullTemperatureControl
  | goToBaseTemperature
  | get4KStageTemperature
  | getMagneticField
  | getMagneticFieldSetPoint
  | getSampleTemperature
  | getUserTemperature
  | setUserMagneticField (v : Word32)
  | setUserTemperature (v : Word32)
  | downloadSampleTemperatureSensorCalibrationCurve (savepath : String)
  | downloadTemperatureSensorCalibrationCurve (n : Int) (savepath : String)
  | getDerivativeGain
  | getIntegralGain
  | getProportionalGain
  | getSampleHeaterMaximumPower
  | getSampleHeaterPower
  | getSampleHeaterResistance
  | getSampleHeaterWireResistance
  | getVtiHeaterPower
  | getVtiTemperature
  | isGoingToBaseTemperature
  | isPumping
  | isSampleExchangeInProgress
  | isSampleHeaterOn
  | isSampleReadyToExchange
  | isSystemRunning
  | isZeroingField
  | lowerError
  | querySampleHeaterMaximumPower
  | querySampleHeaterResistance
  | querySampleHeaterWireResistance
  | setDerivativeGain (v : Word32)
  | setIntegralGain (v : Word32)
  | setProportionalGain (v : Word32)
  | setSampleHeaterMaximumPower (v : Word32)
  | setSampleHeaterWireResistance (v : Word32)
  | setSampleHeaterPower (v : Word32)
  | setSampleHeaterResistance (v : Word32)
  | startLogging (savepath : String) (timeSelection : Int) (append : Int)
  | startSampleExchange
  | stopLogging
  | sweepFieldToZero
  | togglePump
  | toggleStartUpShutdown
  | uploadSampleTemperatureCalibrationCurve (loadpath : String)
  | uploadTemperatureCalibrationCurve (loadpath : String) (n : Int)
  | setVTIHeaterPower (v : Word32)
  | queryReservoirTsetColdSample
  | getReservoirTsetColdSample
  | setReservoirTsetWarmMagnet (v : Word32)
  | setReservoirTsetColdSample (v : Word32)
  | setReservoirTsetWarmSample (v : Word32)
  | queryReservoirTsetWarmSample
  | queryReservoirTsetWarmMagnet
  | getReservoirTsetWarmSample
  | getReservoirTsetWarmMagnet
  | getCryostatInPressure
  | getCryostatInValve
  | getCryostatOutPressure
  | getCryostatOutValve
  | getDumpInValve
  | getDumpOutValve
  | getDumpPressure
  | getReservoirHeaterPower
  | getReservoirTemperature
  | toggleCryostatInValve
  | toggleCryostatOutValve
  | toggleDumpInValve
  | toggleDumpOutValve
  | get40KStageTemperature
  | getHeliumValve
  | getInnerVolumeValve
  | getOuterVolumeValve
  | getPressure
  | getPumpValve
  | getTurbopumpFrequency
  | isExchangeHeaterOn
  | toggleExchangeHeaterControl
  | toggleHeliumValve
  | toggleInnerVolumeValve
  | toggleOuterVolumeValve
  | togglePumpValve
  | getBreakVac800Valve
  | toggleSampleSpace800Valve
  | getPump800Valve
  | getSampleSpace800Valve
  | togglePump800Valve
  | toggleBreakVac800Valve
  | getPressure800
  | GetTurbopumpFrequ800

/-- Dispatcher over every method of class `AttoDRY`, in source order.
Methods already embedded above are delegated to; the remaining ones are
each a single forwarded native call, embedded inline from their bodies. -/
def AttoDRY.run (op : Op) (self : AttoDRY) (d : Driver) : Eff PyVal :=
  match op with
  | .begin => Eff.toVal (fun _ => .none) (AttoDRY.begin self d)
  | .Connect => Eff.toVal (fun _ => .none) (AttoDRY.Connect self d)
  | .Disconnect => Eff.toVal (fun _ => .none) (AttoDRY.Disconnect self d)
  | .end_ => Eff.toVal (fun _ => .none) (AttoDRY.end_ self d)
  | .Cancel => ⟨.none, self, d, [.Cancel]⟩
  | .Confirm => ⟨.none, self, d, [.Confirm]⟩
  | .getActionMessage length => Eff.toVal .str (AttoDRY.getActionMessage self d length)
  | .getAttodryErrorMessage length =>
      Eff.toVal .str (AttoDRY.getAttodryErrorMessage self d length)
  | .getAttodryErrorStatus => Eff.toVal .int (AttoDRY.getAttodryErrorStatus self d)
  | .isControllingField =>
      ⟨.int (int32OfWord d.controllingField), self, d, [.isControllingField]⟩
  | .isControllingTemperature =>
      ⟨.int (int32OfWord d.controllingTemperature), self, d, [.isControllingTemperature]⟩
  | .isPersistentModeSet =>
      ⟨.int (int32OfWord d.persistentModeSet), self, d, [.isPersistentModeSet]⟩
  | .isDeviceInitialised =>
      ⟨.int (int32OfWord d.deviceInitialised), self, d, [.isDeviceInitialised]⟩
  | .isDeviceConnected => Eff.toVal .int (AttoDRY.isDeviceConnected self d)
  | .toggleMagneticFieldControl => ⟨.none, self, d, [.toggleMagneticFieldControl]⟩
  | .togglePersistentMode => ⟨.none, self, d, [.togglePersistentMode]⟩
  | .toggleSampleTemperatureControl => ⟨.none, self, d, [.toggleSampleTemperatureControl]⟩
  | .toggleFullTemperatureControl => ⟨.none, self, d, [.toggleFullTemperatureControl]⟩
  | .goToBaseTemperature => ⟨.none, self, d, [.goToBaseTemperature]⟩
  | .get4KStageTemperature => Eff.toVal .float (AttoDRY.get4KStageTemperature self d)
  | .getMagneticField => ⟨.float d.magneticField, self, d, [.getMagneticField]⟩
  | .getMagneticFieldSetPoint =>
      ⟨.float d.magneticFieldSetPoint, self, d, [.getMagneticFieldSetPoint]⟩
  | .getSampleTemperature => Eff.toVal .float (AttoDRY.getSampleTemperature self d)
  | .getUserTemperature => Eff.toVal .float (AttoDRY.getUserTemperature self d)
  | .setUserMagneticField v =>
      ⟨.none, self, { d with userMagneticField := v }, [.setUserMagneticField v]⟩
  | .setUserTemperature v => Eff.toVal (fun _ => .none) (AttoDRY.setUserTemperature self d v)
  | .downloadSampleTemperatureSensorCalibrationCurve savepath =>
      ⟨.none, self, d,
        [.downloadSampleTemperatureSensorCalibrationCurve (cstrValue (encodeUtf8 savepath))]⟩
  | .downloadTemperatureSensorCalibrationCurve n savepath =>
      ⟨.none, self, d,
        [.downloadTemperatureSensorCalibrationCurve (int32wrap n)
          (cstrValue (encodeUtf8 savepath))]⟩
  | .getDerivativeGain => ⟨.float d.derivativeGain, self, d, [.getDerivativeGain]⟩
  | .getIntegralGain => ⟨.float d.integralGain, self, d, [.getIntegralGain]⟩
  | .getProportionalGain => ⟨.float d.proportionalGain, self, d, [.getProportionalGain]⟩
  | .getSampleHeaterMaximumPower =>
      ⟨.float d.sampleHeaterMaximumPower, self, d, [.getSampleHeaterMaximumPower]⟩
  | .getSampleHeaterPower => ⟨.float d.sampleHeaterPower, self, d, [.getSampleHeaterPower]⟩
  | .getSampleHeaterResistance =>
      ⟨.float d.sampleHeaterResistance, self, d, [.getSampleHeaterResistance]⟩
  | .getSampleHeaterWireResistance =>
      ⟨.float d.sampleHeaterWireResistance, self, d, [.getSampleHeaterWireResistance]⟩
  | .getVtiHeaterPower => ⟨.float d.vtiHeaterPower, self, d, [.getVtiHeaterPower]⟩
  | .getVtiTemperature => ⟨.float d.vtiTemperature, self, d, [.getVtiTemperature]⟩
  | .isGoingToBaseTemperature =>
      ⟨.int (int32OfWord d.goingToBaseTemperature), self, d, [.isGoingToBaseTemperature]⟩
  | .isPumping => ⟨.int (int32OfWord d.pumping), self, d, [.isPumping]⟩
  | .isSampleExchangeInProgress =>
      ⟨.int (int32OfWord d.sampleExchangeInProgress), self, d, [.isSampleExchangeInProgress]⟩
  | .isSampleHeaterOn => ⟨.int (int32OfWord d.sampleHeaterOn), self, d, [.isSampleHeaterOn]⟩
  | .isSampleReadyToExchange =>
      ⟨.int (int32OfWord d.sampleReadyToExchange), self, d, [.isSampleReadyToExchange]⟩
  | .isSystemRunning => ⟨.int (int32OfWord d.systemRunning), self, d, [.isSystemRunning]⟩
  | .isZeroingField => ⟨.int (int32OfWord d.zeroingField), self, d, [.isZeroingField]⟩
  | .lowerError => ⟨.none, self, d, [.lowerError]⟩
  | .querySampleHeaterMaximumPower => ⟨.none, self, d, [.querySampleHeaterMaximumPower]⟩
  | .querySampleHeaterResistance => ⟨.none, self, d, [.querySampleHeaterResistance]⟩
  | .querySampleHeaterWireResistance => ⟨.none, self, d, [.querySampleHeaterWireResistance]⟩
  | .setDerivativeGain v =>
      ⟨.none, self, { d with derivativeGain := v }, [.setDerivativeGain v]⟩
  | .setIntegralGain v => ⟨.none, self, { d with integralGain := v }, [.setIntegralGain v]⟩
  | .setProportionalGain v =>
      ⟨.none, self, { d with proportionalGain := v }, [.setProportionalGain v]⟩
  | .setSampleHeaterMaximumPower v =>
      ⟨.none, self, { d with sampleHeaterMaximumPower := v }, [.setSampleHeaterMaximumPower v]⟩
  | .setSampleHeaterWireResistance v =>
      ⟨.none, self, { d with sampleHeaterWireResistance := v },
        [.setSampleHeaterWireResistance v]⟩
  | .setSampleHeaterPower v =>
      ⟨.none, self, { d with sampleHeaterPower := v }, [.setSampleHeaterPower v]⟩
  | .setSampleHeaterResistance v =>
      ⟨.none, self, { d with sampleHeaterResistance := v }, [.setSampleHeaterResistance v]⟩
  | .startLogging savepath timeSelection append =>
      ⟨.none, self, d,
        [.startLogging (cstrValue (encodeUtf8 savepath)) (int32wrap timeSelection)
          (int32wrap append)]⟩
  | .startSampleExchange => ⟨.none, self, d, [.startSampleExchange]⟩
  | .stopLogging => ⟨.none, self, d, [.stopLogging]⟩
  | .sweepFieldToZero => ⟨.none, self, d, [.sweepFieldToZero]⟩
  | .togglePump => ⟨.none, self, d, [.togglePump]⟩
  | .toggleStartUpShutdown => ⟨.none, self, d, [.toggleStartUpShutdown]⟩
  | .uploadSampleTemperatureCalibrationCurve loadpath =>
      ⟨.none, self, d,
        [.uploadSampleTemperatureCalibrationCurve (cstrValue (encodeUtf8 loadpath))]⟩
  | .uploadTemperatureCalibrationCurve loadpath n =>
      Eff.toVal (fun _ => .none) (AttoDRY.uploadTemperatureCalibrationCurve self d loadpath n)
  | .setVTIHeaterPower v =>
      ⟨.none, self, { d with vtiHeaterPower := v }, [.setVTIHeaterPower v]⟩
  | .queryReservoirTsetColdSample => ⟨.none, self, d, [.queryReservoirTsetColdSample]⟩
  | .getReservoirTsetColdSample =>
      ⟨.float d.reservoirTsetColdSample, self, d, [.getReservoirTsetColdSample]⟩
  | .setReservoirTsetWarmMagnet v =>
      ⟨.none, self, { d with reservoirTsetWarmMagnet := v }, [.setReservoirTsetWarmMagnet v]⟩
  | .setReservoirTsetColdSample v =>
      ⟨.none, self, { d with reservoirTsetColdSample := v }, [.setReservoirTsetColdSample v]⟩
  | .setReservoirTsetWarmSample v =>
      ⟨.none, self, { d with reservoirTsetWarmSample := v }, [.setReservoirTsetWarmSample v]⟩
  | .queryReservoirTsetWarmSample => ⟨.none, self, d, [.queryReservoirTsetWarmSample]⟩
  | .queryReservoirTsetWarmMagnet => ⟨.none, self, d, [.queryReservoirTsetWarmMagnet]⟩
  | .getReservoirTsetWarmSample =>
      ⟨.float d.reservoirTsetWarmSample, self, d, [.getReservoirTsetWarmSample]⟩
  | .getReservoirTsetWarmMagnet =>
      ⟨.float d.reservoirTsetWarmMagnet, self, d, [.getReservoirTsetWarmMagnet]⟩
  | .getCryostatInPressure => ⟨.float d.cryostatInPressure, self, d, [.getCryostatInPressure]⟩
  | .getCryostatInValve =>
      ⟨.int (int32OfWord d.cryostatInValve), self, d, [.getCryostatInValve]⟩
  | .getCryostatOutPressure =>
      ⟨.float d.cryostatOutPressure, self, d, [.getCryostatOutPressure]⟩
  | .getCryostatOutValve =>
      ⟨.int (int32OfWord d.cryostatOutValve), self, d, [.getCryostatOutValve]⟩
  | .getDumpInValve => ⟨.int (int32OfWord d.dumpInValve), self, d, [.getDumpInValve]⟩
  | .getDumpOutValve => ⟨.int (int32OfWord d.dumpOutValve), self, d, [.getDumpOutValve]⟩
  | .getDumpPressure => ⟨.float d.dumpPressure, self, d, [.getDumpPressure]⟩
  | .getReservoirHeaterPower =>
      ⟨.float d.reservoirHeaterPower, self, d, [.getReservoirHeaterPower]⟩
  | .getReservoirTemperature =>
      ⟨.float d.reservoirTemperature, self, d, [.getReservoirTemperature]⟩
  | .toggleCryostatInValve => ⟨.none, self, d, [.toggleCryostatInValve]⟩
  | .toggleCryostatOutValve => ⟨.none, self, d, [.toggleCryostatOutValve]⟩
  | .toggleDumpInValve => ⟨.none, self, d, [.toggleDumpInValve]⟩
  | .toggleDumpOutValve => ⟨.none, self, d, [.toggleDumpOutValve]⟩
  | .get40KStageTemperature =>
      ⟨.float d.stage40KTemperature, self, d, [.get40KStageTemperature]⟩
  | .getHeliumValve => ⟨.int (int32OfWord d.heliumValve), self, d, [.getHeliumValve]⟩
  | .getInnerVolumeValve =>
      ⟨.int (int32OfWord d.innerVolumeValve), self, d, [.getInnerVolumeValve]⟩
  | .getOuterVolumeValve =>
      ⟨.int (int32OfWord d.outerVolumeValve), self, d, [.getOuterVolumeValve]⟩
  | .getPressure => ⟨.float d.pressure, self, d, [.getPressure]⟩
  | .getPumpValve => ⟨.int (int32OfWord d.pumpValve), self, d, [.getPumpValve]⟩
  | .getTurbopumpFrequency => Eff.toVal .float (AttoDRY.getTurbopumpFrequency self d)
  | .isExchangeHeaterOn =>
      ⟨.int (int32OfWord d.exchangeHeaterOn), self, d, [.isExchangeHeaterOn]⟩
  | .toggleExchangeHeaterControl => ⟨.none, self, d, [.toggleExchangeHeaterControl]⟩
  | .toggleHeliumValve => Eff.toVal (fun _ => .none) (AttoDRY.toggleHeliumValve self d)
  | .toggleInnerVolumeValve => ⟨.none, self, d, [.toggleInnerVolumeValve]⟩
  | .toggleOuterVolumeValve => ⟨.none, self, d, [.toggleOuterVolumeValve]⟩
  | .togglePumpValve => ⟨.none, self, d, [.togglePumpValve]⟩
  | .getBreakVac800Valve => Eff.toVal .int (AttoDRY.getBreakVac800Valve self d)
  | .toggleSampleSpace800Valve => ⟨.none, self, d, [.toggleSampleSpace800Valve]⟩
  | .getPump800Valve => ⟨.int (int32OfWord d.pump800Valve), self, d, [.getPump800Valve]⟩
  | .getSampleSpace800Valve =>
      ⟨.int (int32OfWord d.sampleSpace800Valve), self, d, [.getSampleSpace800Valve]⟩
  | .togglePump800Valve => ⟨.none, self, d, [.togglePump800Valve]⟩
  | .toggleBreakVac800Valve => ⟨.none, self, d, [.toggleBreakVac800Valve]⟩
  | .getPressure800 => ⟨.float d.pressure800, self, d, [.getPressure800]⟩
  | .GetTurbopumpFrequ800 => ⟨.float d.turbopumpFrequ800, self, d, [.GetTurbopumpFrequ800]⟩

/-- Concrete Facade for the ATTODRY2100 variant on port COM5 (the spec's
example scenario), freshly constructed: no lifecycle operation has been
invoked on it. -/
def facade2100 : AttoDRY := ⟨Devices.ATTODRY2100, "COM5"⟩

/-- Concrete driver test double reporting the device as not connected
(every channel 0, empty message buffer). -/
def driverDisconnected : Driver := {}

/-- Concrete driver test double reporting the device as connected. -/
def driverConnected : Driver := { deviceConnected := 1 }

/-- C1: for every Facade state, if `isDeviceConnected()` reports the device
as connected when `end()` is called, then `end()` invokes `Disconnect()`
exactly once before invoking the driver's `end` entry point; if the device
is not connected, `end()` invokes the driver's `end` entry point without any
`Disconnect()` call. -/
theorem end_disconnects_exactly_once_iff_connected (f : AttoDRY) (d : Driver) :
    ∃ pre, (AttoDRY.end_ f d).trace = pre ++ [DriverCall.end_] ∧
      pre.countP DriverCall.isEndCall = 0 ∧
      pre.countP DriverCall.isDisconnectCall =
        (if (AttoDRY.isDeviceConnected f d).result ≠ 0 then 1 else 0) := by
  by_cases h : (AttoDRY.isDeviceConnected f d).result ≠ 0
  · refine ⟨[DriverCall.isDeviceConnected, DriverCall.Disconnect], ?_, ?_, ?_⟩
    · simp [AttoDRY.end_, AttoDRY.isDeviceConnected, AttoDRY.Disconnect,
        AttoDRY.isDeviceConnected] at h ⊢
      simp [h]
    · rfl
    · rw [if_pos h]; rfl
  · refine ⟨[DriverCall.isDeviceConnected], ?_, ?_, ?_⟩
    · simp [AttoDRY.end_, AttoDRY.isDeviceConnected, AttoDRY.Disconnect] at h ⊢
      simp [h]
    · rfl
    · rw [if_neg h]; rfl

/-- C2 counterexample: the claim says a telemetry getter called before
`begin()` fails with `NotInitialized` without invoking the driver's
telemetry entry point.  On a freshly constructed Facade (no `begin`, no
`Connect` ever invoked), `getSampleTemperature` and `get4KStageTemperature`
do invoke their driver telemetry entry points and return normally. -/
theorem telemetry_before_begin_invokes_driver_cex :
    DriverCall.getSampleTemperature ∈
      (AttoDRY.getSampleTemperature facade2100 driverDisconnected).trace ∧
    DriverCall.get4KStageTemperature ∈
      (AttoDRY.get4KStageTemperature facade2100 driverDisconnected).trace := by
  constructor <;> simp [AttoDRY.getSampleTemperature, AttoDRY.get4KStageTemperature]

/-- C2 amended: the Facade keeps no lifecycle state and performs no
`NotInitialized` / `NotConnected` check: in every state, also before
`begin()` or `Connect()`, each telemetry getter invokes its driver entry
point exactly once and returns the word the driver writes, never failing at
this layer. -/
theorem telemetry_getters_unguarded (f : AttoDRY) (d : Driver) :
    (AttoDRY.getSampleTemperature f d).trace = [DriverCall.getSampleTemperature] ∧
    (AttoDRY.getSampleTemperature f d).result = d.sampleTemperature ∧
    (AttoDRY.get4KStageTemperature f d).trace = [DriverCall.get4KStageTemperature] ∧
    (AttoDRY.get4KStageTemperature f d).result = d.stage4KTemperature :=
  ⟨rfl, rfl, rfl, rfl⟩

/-- C3: evaluation of the code at the failing input.  The claim (and the
method's own docstring) says `getActionMessage` reads the driver's
action-message channel, distinct from the error message; the body instead
invokes the `getAttodryErrorMessage` entry point and returns the same string
as `getAttodryErrorMessage()`. -/
theorem getActionMessage_reads_error_message_channel :
    (AttoDRY.getActionMessage facade2100 driverConnected).trace
      = [DriverCall.getAttodryErrorMessage 500 500] ∧
    (AttoDRY.getActionMessage facade2100 driverConnected).result
      = (AttoDRY.getAttodryErrorMessage facade2100 driverConnected).result :=
  ⟨rfl, rfl⟩

/-- C4 counterexample: the claim says an ATTODRY1100-only operation invoked
on a Facade for a different variant fails with `UnsupportedForVariant`
instead of forwarding the call.  `toggleHeliumValve` on a Facade constructed
for `ATTODRY2100` forwards the call to the driver and returns normally. -/
theorem toggleHeliumValve_wrong_variant_forwards_cex :
    DriverCall.toggleHeliumValve ∈
      (AttoDRY.toggleHeliumValve facade2100 driverConnected).trace := by
  simp [AttoDRY.toggleHeliumValve]

/-- C4 amended: no variant check exists in this layer (the spec flags this
as a latent gap): `toggleHeliumValve` is a pass-through to the driver for
every Facade, whatever its configured variant. -/
theorem toggleHeliumValve_pass_through_any_variant (f : AttoDRY) (d : Driver) :
    (AttoDRY.toggleHeliumValve f d).trace = [DriverCall.toggleHeliumValve] ∧
    (AttoDRY.toggleHeliumValve f d).facade = f :=
  ⟨rfl, rfl⟩

/-- C5: with the driver modeled as a pass-through store (`set` writes the
marshaled value, `get` reads it back), `setUserTemperature(V)` followed by
`getUserTemperature()` returns V unchanged, for every value V of the
marshaled 32-bit float domain. -/
theorem setUserTemperature_getUserTemperature_roundtrip
    (f : AttoDRY) (d : Driver) (v : Word32) :
    (AttoDRY.getUserTemperature (AttoDRY.setUserTemperature f d v).facade
      (AttoDRY.setUserTemperature f d v).driver).result = v :=
  rfl

/-- C6 counterexample: the claim says a curve number outside 1–8 is rejected
by this layer before any driver call.  With curve number 9 (outside 1–8),
`uploadTemperatureCalibrationCurve` makes its driver call anyway. -/
theorem uploadTemperatureCalibrationCurve_nine_not_rejected_cex :
    ¬((1 : Int) ≤ 9 ∧ (9 : Int) ≤ 8) ∧
    (AttoDRY.uploadTemperatureCalibrationCurve facade2100 driverConnected
      "curve.crv" 9).trace ≠ [] := by
  constructor
  · decide
  · simp [AttoDRY.uploadTemperatureCalibrationCurve]

/-- C6 amended: this layer performs no curve-number validation:
`uploadTemperatureCalibrationCurve` forwards every integer curve number
(marshaled through `c_int`) together with the encoded path to the driver;
the 1–8 restriction lives only in the docstring. -/
theorem uploadTemperatureCalibrationCurve_forwards_any_number
    (f : AttoDRY) (d : Driver) (loadpath : String) (n : Int) :
    (AttoDRY.uploadTemperatureCalibrationCurve f d loadpath n).trace
      = [DriverCall.uploadTemperatureCalibrationCurve (int32wrap n)
          (cstrValue (encodeUtf8 loadpath))] :=
  rfl

/-- C7: with no length argument, both text-returning diagnostics allocate an
output buffer of the default bounded size 500 bytes, pass it with length
500 to the driver, and return exactly the buffer's (NUL-terminated) content
decoded as UTF-8. -/
theorem diagnostics_default_buffer_500_utf8 (f : AttoDRY) (d : Driver) :
    (AttoDRY.getAttodryErrorMessage f d).trace
      = [DriverCall.getAttodryErrorMessage 500 500] ∧
    (AttoDRY.getAttodryErrorMessage f d).result
      = decodeUtf8 (cstrValue (d.errorMessageBuf 500)) ∧
    (AttoDRY.getActionMessage f d).trace
      = [DriverCall.getAttodryErrorMessage 500 500] ∧
    (AttoDRY.getActionMessage f d).result
      = decodeUtf8 (cstrValue (d.errorMessageBuf 500)) := by
  have h : int32wrap 500 = 500 := by decide
  refine ⟨?_, ?_, ?_, ?_⟩ <;>
    simp [AttoDRY.getAttodryErrorMessage, AttoDRY.getActionMessage, h]

/-- C8: every operation of the Facade leaves the object unchanged: the
fields `setup_version` and `com_port` keep the values stored at
construction, and—`AttoDRY` having exactly those two fields, mirroring
`__init__`—no operation stores any other value on the Facade object. -/
theorem run_preserves_facade (op : Op) (f : AttoDRY) (d : Driver) :
    (AttoDRY.run op f d).facade = f ∧
    (AttoDRY.run op f d).facade.setup_version = f.setup_version ∧
    (AttoDRY.run op f d).facade.com_port = f.com_port := by
  have h : (AttoDRY.run op f d).facade = f := by
    cases op <;>
      first
        | rfl
        | (simp only [AttoDRY.run, Eff.toVal, AttoDRY.end_]
           split <;> rfl)
  exact ⟨h, by rw [h], by rw [h]⟩

/-- C9: `getActionMessage(length)` and `getAttodryErrorMessage(length)`
invoke the same driver entry point (`getAttodryErrorMessage`) with
identically constructed arguments, so for every driver state and every
length the two operations return equal strings (they are equal as
operations: result, state and trace all coincide). -/
theorem getActionMessage_eq_getAttodryErrorMessage
    (f : AttoDRY) (d : Driver) (length : Int) :
    AttoDRY.getActionMessage f d length = AttoDRY.getAttodryErrorMessage f d length :=
  rfl

/-- C10: `getBreakVac800Valve()` invokes the driver's
`getTurbopumpFrequency` entry point (not a break-vacuum-valve entry point)
with a 32-bit integer output buffer, and returns the very word the
turbopump-frequency read yields, reinterpreted through the two's-complement
`c_int` view. -/
theorem getBreakVac800Valve_reads_turbopump_frequency (f : AttoDRY) (d : Driver) :
    (AttoDRY.getBreakVac800Valve f d).trace = [DriverCall.getTurbopumpFrequency] ∧
    (AttoDRY.getBreakVac800Valve f d).result
      = int32OfWord (AttoDRY.getTurbopumpFrequency f d).result ∧
    (AttoDRY.getTurbopumpFrequency f d).result = d.turbopumpFrequency :=
  ⟨rfl, rfl, rfl⟩
